import Mathlib

/-!
Shallow embedding of the Voice-To-Post backend (FastAPI app in main.py,
together with generation_service.py, speech_service.py, database.py and
social_publisher.py).

Modelling conventions:
* Python floats are embedded as rationals (Rat); the only numeric
  operations involved are sums, division by a length and comparison
  against the literal 0.75, all exact.
* External collaborators that are not part of the repository source
  (Deepgram transcription, the FAISS vector store, the Gemini LLM chain,
  dateparser, datetime.fromisoformat, the Fernet cipher) are passed in as
  function parameters; each endpoint embedding is a pure function of the
  request data and of those collaborator functions.
* Side effects that the claims talk about (registering a scheduler job,
  invoking the publish action, invoking the scoring function, querying the
  vector index) are made observable as explicit trace fields of the result
  record, in the order the Python code performs them.
-/

/-- Python str.startswith, embedded as a prefix test on the character
sequences of the two strings. -/
def startswith (s pre : String) : Bool :=
  pre.data.isPrefixOf s.data

/-- One retrieval hit as returned by vector_store.search_index: a record
with a text and a distance (lower is more similar). -/
structure SearchResult where
  text : String
  distance : Rat
deriving DecidableEq

/-- One generated candidate record, as consumed by main.py via the
expression generated_variations[0]["text"]. -/
structure Variation where
  text : String
deriving DecidableEq

/-- Result of scoring.calculate_safety_score as used by main.py, which
reads only the final_score field of the returned mapping. -/
structure ScoreData where
  final_score : Rat
deriving DecidableEq

/-- Embedding of main.py line 166: the average of the result distances
when the result list is non-empty (Python truthiness of a list), and the
sentinel -1.0 otherwise. -/
def avg_distance (results : List SearchResult) : Rat :=
  if results.isEmpty then -1
  else ((results.map (fun r => r.distance)).sum) / (results.length : Rat)

/-- The JSON body returned by the generate-post endpoint on either side of
the 0.75 gate: fields status, variations, error (main.py lines 178-188). -/
structure Envelope where
  status : String
  variations : Option (List Variation)
  error : Option String
deriving DecidableEq

/-- Outcome of one generate-post request: an HTTPException raise, an
unhandled Python exception (the IndexError from variations[0] when the
generation result is empty), or a JSON body. -/
inductive GenResponse where
  | httpException (statusCode : Nat) (detail : String)
  | unhandledError
  | body (e : Envelope)
deriving DecidableEq

/-- A full run of the generate-post endpoint: the response plus the
observable collaborator calls it made, in source order. -/
structure GenPostRun where
  response : GenResponse
  searchedQueries : List String
  generationCalls : List String
  scoredTexts : List (String × Rat)
  publishCalls : List (String × String)
deriving DecidableEq

/-- Embedding of the generate-post endpoint, main.py lines 153-188.
Parameters: the tone form field, the transcript returned by
speech_service.transcribe_audio_bytes for the uploaded audio, the vector
search collaborator (vector_store.search_index with top_k = 3), the
generation collaborator as called on main.py line 170 with arguments
(transcript, results, tone), and scoring.calculate_safety_score.
The body follows the source line by line: the Error/ERROR transcript
check raising HTTPException 500, the retrieval, the average distance,
the generation call, scoring of variations[0].text, and the 0.75 gate
returning either the success body with the variations or the rejected
body. No publish adapter call occurs anywhere on this endpoint, so the
publishCalls trace is empty on every path. -/
def generate_post (tone : String) (transcript : String)
    (search : String → List SearchResult)
    (generate : String → List SearchResult → String → List Variation)
    (score : String → Rat → ScoreData) : GenPostRun :=
  if startswith transcript ("Error") || startswith transcript ("ERROR") then
    ⟨.httpException 500 transcript, [], [], [], []⟩
  else
    let results := search transcript
    let avg := avg_distance results
    let generated_variations := generate transcript results tone
    match generated_variations with
    | [] => ⟨.unhandledError, [transcript], [transcript], [], []⟩
    | v0 :: rest =>
      let score_data := score v0.text avg
      if score_data.final_score ≥ (0.75 : Rat) then
        ⟨.body ⟨("success"), some (v0 :: rest), none⟩,
          [transcript], [transcript], [(v0.text, avg)], []⟩
      else
        ⟨.body ⟨("rejected"), none,
            some ("The generated post failed safety thresholds (Score < 0.75).")⟩,
          [transcript], [transcript], [(v0.text, avg)], []⟩

/-- Embedding of generation_service.format_context (lines 45-51). -/
def format_context (vector_results : List SearchResult) : String :=
  if vector_results.isEmpty then ("No specific past context found.")
  else String.intercalate ("\n") (vector_results.map (fun r => ("- ") ++ r.text))

/-- Embedding of generation_service.generate_post_rag (lines 53-105).
Its Python signature is generate_post_rag(transcript, retrieved_context),
with no tone parameter, and it returns a single string. The NewsAPI block
(an external HTTP call wrapped in try/except that appends a news string,
empty when the key is missing or the call fails) is abstracted as the
news_context parameter; the LangChain chain invocation on the combined
context and the transcript is abstracted as the llm parameter, returning
Except: ok is the chain result, error carries str(e) for the exception
caught on lines 103-105, which the function turns into the returned
string prefixed with the error text. -/
def generate_post_rag (transcript : String) (retrieved_context : List SearchResult)
    (news_context : String)
    (llm : String → String → Except String String) : String :=
  let formatted_context := format_context retrieved_context
  let final_context := formatted_context ++ news_context
  match llm final_context transcript with
  | .ok result => result
  | .error e => ("Error generating post: ") ++ e

/-- The request body of the confirm-post endpoint (main.py lines 130-133). -/
structure ConfirmPostRequest where
  platform : String
  text : String
  scheduled_time : Option String
deriving DecidableEq

/-- Response of the confirm-post endpoint: an HTTPException raise or a
JSON body with status and message fields. -/
inductive ConfirmResponse where
  | httpException (statusCode : Nat) (detail : String)
  | ok (status : String) (message : String)
deriving DecidableEq

/-- A full run of the confirm-post endpoint over an abstract datetime type
DT: the response, the scheduler jobs registered via scheduler.add_job
(run date, platform, text), and the synchronous publish_to_social_media
calls made during the request. -/
structure ConfirmRun (DT : Type) where
  response : ConfirmResponse
  jobs : List (DT × String × String)
  publishCalls : List (String × String)
deriving DecidableEq

/-- Embedding of the confirm-post endpoint, main.py lines 135-151.
The datetime type and datetime.fromisoformat are abstract parameters:
fromisoformat returns none exactly when the Python function raises
ValueError, and isoformat renders a datetime. The Python guard is the
truthiness test on request.scheduled_time, which is false both for None
and for the empty string, so both fall to the immediate-publish branch;
a present, non-empty scheduled_time is parsed, and a ValueError becomes
the HTTPException 400 with no job registered and no publish call. -/
def confirm_post {DT : Type} (fromisoformat : String → Option DT)
    (isoformat : DT → String) (request : ConfirmPostRequest) : ConfirmRun DT :=
  match request.scheduled_time with
  | some s =>
    if s.data.isEmpty then
      ⟨.ok ("published_immediately") ("Post published immediately."),
        [], [(request.platform, request.text)]⟩
    else
      match fromisoformat s with
      | some dt =>
        ⟨.ok ("scheduled") (("Post scheduled for ") ++ isoformat dt),
          [(dt, request.platform, request.text)], []⟩
      | none =>
        ⟨.httpException 400 ("Invalid scheduled_time format. Must be ISO 8601."),
          [], []⟩
  | none =>
    ⟨.ok ("published_immediately") ("Post published immediately."),
      [], [(request.platform, request.text)]⟩

/-- Success body of the parse-schedule endpoint (main.py lines 125-128). -/
structure ParseScheduleOk where
  parsed_time : String
  human_text : String
deriving DecidableEq

/-- Response of the parse-schedule endpoint. -/
inductive ParseScheduleResponse where
  | httpException (statusCode : Nat) (detail : String)
  | ok (b : ParseScheduleOk)
deriving DecidableEq

/-- Embedding of the parse-schedule endpoint, main.py lines 110-128.
The transcript parameter is the string returned by the transcription
collaborator for the uploaded audio; the endpoint applies no check to it
before handing it to the date parser. dateparse abstracts
dateparser.parse with the Asia/Kolkata timezone-aware settings: none
when the library finds no time expression (the Python value None, the
only falsy value it can return, since datetime objects are always
truthy). On none the endpoint raises HTTPException 400; otherwise it
returns the parsed time in ISO format together with the transcript. -/
def parse_schedule {DT : Type} (dateparse : String → Option DT)
    (isoformat : DT → String) (transcript : String) : ParseScheduleResponse :=
  match dateparse transcript with
  | none => .httpException 400 ("Could not parse scheduled time from transcript.")
  | some parsed_time => .ok ⟨isoformat parsed_time, transcript⟩

/-- Embedding of database.encrypt_secret (lines 49-51), which computes
cipher_suite.encrypt of the UTF-8 encoding of the input and decodes the
resulting token back to a string. The byte type, the UTF-8 codec and the
Fernet cipher bound to the process key are abstract parameters; decode
is partial the way the Python bytes.decode is (it raises on invalid
byte sequences). -/
def encrypt_secret {Bytes : Type} (encode : String → Bytes)
    (decode : Bytes → Option String) (fernetEncrypt : Bytes → Bytes)
    (plain_text : String) : Option String :=
  decode (fernetEncrypt (encode plain_text))

/-- Embedding of database.decrypt_secret (lines 53-55), which computes
cipher_suite.decrypt of the UTF-8 encoding of the token and decodes the
result back to a string. -/
def decrypt_secret {Bytes : Type} (encode : String → Bytes)
    (decode : Bytes → Option String) (fernetDecrypt : Bytes → Bytes)
    (encrypted_text : String) : Option String :=
  decode (fernetDecrypt (encode encrypted_text))

/- Concrete collaborator instances used to evaluate the endpoint
embeddings at specific inputs. -/

/-- A vector search that returns no hits. -/
def searchNone : String → List SearchResult := fun _ => []

/-- A generation collaborator producing one fixed candidate record. -/
def genOne : String → List SearchResult → String → List Variation :=
  fun _ _ _ => [⟨("post text")⟩]

/-- A scoring collaborator returning a constant final score. -/
def scoreConst (q : Rat) : String → Rat → ScoreData := fun _ _ => ⟨q⟩

/-- An ISO datetime parser that accepts nothing, over datetimes
modelled as integers. -/
def isoNone : String → Option Int := fun _ => none

/-- Rendering of the integer datetime model. -/
def isoFmtInt : Int → String := fun n => toString n

/-- Evaluation lemma for the generate-post embedding on the passing path:
with a transcript that carries no error marker, a generation result with
head v0, and a final score at or above 0.75, the run is the success body
carrying all the variations, with one search, one generation call, one
scoring call on v0 and no publish call. -/
theorem generate_post_eval_pass (tone transcript : String)
    (search : String → List SearchResult)
    (generate : String → List SearchResult → String → List Variation)
    (score : String → Rat → ScoreData) (v0 : Variation) (rest : List Variation)
    (h1 : startswith transcript ("Error") = false)
    (h2 : startswith transcript ("ERROR") = false)
    (hgen : generate transcript (search transcript) tone = v0 :: rest)
    (hscore : (score v0.text (avg_distance (search transcript))).final_score ≥ (0.75 : Rat)) :
    generate_post tone transcript search generate score =
      ⟨.body ⟨("success"), some (v0 :: rest), none⟩,
        [transcript], [transcript],
        [(v0.text, avg_distance (search transcript))], []⟩ := by
  unfold generate_post
  rw [h1, h2]
  simp only [Bool.or_self, Bool.false_eq_true, if_false, hgen]
  rw [if_pos hscore]

/-- Evaluation lemma for the generate-post embedding on the rejected path:
same hypotheses but with a final score strictly below 0.75, the run is
the rejected body with no variations and no publish call. -/
theorem generate_post_eval_reject (tone transcript : String)
    (search : String → List SearchResult)
    (generate : String → List SearchResult → String → List Variation)
    (score : String → Rat → ScoreData) (v0 : Variation) (rest : List Variation)
    (h1 : startswith transcript ("Error") = false)
    (h2 : startswith transcript ("ERROR") = false)
    (hgen : generate transcript (search transcript) tone = v0 :: rest)
    (hscore : (score v0.text (avg_distance (search transcript))).final_score < (0.75 : Rat)) :
    generate_post tone transcript search generate score =
      ⟨.body ⟨("rejected"), none,
          some ("The generated post failed safety thresholds (Score < 0.75).")⟩,
        [transcript], [transcript],
        [(v0.text, avg_distance (search transcript))], []⟩ := by
  unfold generate_post
  rw [h1, h2]
  simp only [Bool.or_self, Bool.false_eq_true, if_false, hgen]
  rw [if_neg (not_le.mpr hscore)]

/-- Evaluation lemma for the generate-post embedding on the error-marker
path: a transcript starting with Error or ERROR is surfaced as an
HTTPException 500 carrying the transcript, with no downstream call. -/
theorem generate_post_eval_error (tone transcript : String)
    (search : String → List SearchResult)
    (generate : String → List SearchResult → String → List Variation)
    (score : String → Rat → ScoreData)
    (h : (startswith transcript ("Error") || startswith transcript ("ERROR")) = true) :
    generate_post tone transcript search generate score =
      ⟨.httpException 500 transcript, [], [], [], []⟩ := by
  unfold generate_post
  rw [h]
  simp only [if_true]

/-- Claim C1, counterexample: a generate-post request whose primary
candidate scores 8/10 ≥ 0.75 (and which, like every generate-post
request, carries no schedule request) produces the success body, yet the
publish adapter is invoked zero times during the request: the endpoint
(main.py lines 176-182) returns the variations without any publish
call. -/
theorem passing_generate_post_run_has_no_publish_call :
    (scoreConst (8/10) ("post text") (avg_distance (searchNone ("hi")))).final_score ≥
      (0.75 : Rat) ∧
    (generate_post ("casual") ("hi") searchNone genOne (scoreConst (8/10))).response =
      .body ⟨("success"), some [⟨("post text")⟩], none⟩ ∧
    (generate_post ("casual") ("hi") searchNone genOne (scoreConst (8/10))).publishCalls =
      [] := by
  refine ⟨by norm_num [scoreConst], ?_, ?_⟩ <;>
    rw [generate_post_eval_pass ("casual") ("hi") searchNone genOne (scoreConst (8/10))
      ⟨("post text")⟩ [] (by decide) (by decide) rfl (by norm_num [scoreConst])]

/-- Claim C1 (amended): for every generate-post request whose primary
candidate passes the 0.75 threshold (no generate-post request carries a
schedule request), the full candidate set is returned to the caller in
the success body and the publish adapter is not invoked within that
request. -/
theorem passing_generate_post_returns_candidates_without_publishing
    (tone transcript : String) (search : String → List SearchResult)
    (generate : String → List SearchResult → String → List Variation)
    (score : String → Rat → ScoreData) (v0 : Variation) (rest : List Variation)
    (h1 : startswith transcript ("Error") = false)
    (h2 : startswith transcript ("ERROR") = false)
    (hgen : generate transcript (search transcript) tone = v0 :: rest)
    (hscore : (score v0.text (avg_distance (search transcript))).final_score ≥ (0.75 : Rat)) :
    (generate_post tone transcript search generate score).response =
      .body ⟨("success"), some (v0 :: rest), none⟩ ∧
    (generate_post tone transcript search generate score).publishCalls = [] := by
  rw [generate_post_eval_pass tone transcript search generate score v0 rest h1 h2 hgen hscore]
  exact ⟨rfl, rfl⟩

/-- Claim C1, witness for the amended theorem at a concrete request. -/
theorem passing_generate_post_returns_candidates_without_publishing_witness :
    (generate_post ("casual") ("hi") searchNone genOne (scoreConst (8/10))).response =
      .body ⟨("success"), some [⟨("post text")⟩], none⟩ ∧
    (generate_post ("casual") ("hi") searchNone genOne (scoreConst (8/10))).publishCalls =
      [] :=
  passing_generate_post_returns_candidates_without_publishing ("casual") ("hi")
    searchNone genOne (scoreConst (8/10)) ⟨("post text")⟩ [] (by decide) (by decide)
    rfl (by norm_num [scoreConst])

/-- Claim C2, counterexample: two scoring collaborators whose score
breakdowns differ (final scores 8/10 and 9/10, both passing) produce
identical generate-post responses, so the success body cannot contain
the safety score breakdown: the endpoint returns only status,
variations and error fields (main.py lines 178-182). -/
theorem success_body_carries_no_score_breakdown :
    generate_post ("casual") ("hi") searchNone genOne (scoreConst (8/10)) =
      generate_post ("casual") ("hi") searchNone genOne (scoreConst (9/10)) ∧
    scoreConst (8/10) ("post text") (avg_distance (searchNone ("hi"))) ≠
      scoreConst (9/10) ("post text") (avg_distance (searchNone ("hi"))) := by
  constructor
  · rw [generate_post_eval_pass ("casual") ("hi") searchNone genOne (scoreConst (8/10))
        ⟨("post text")⟩ [] (by decide) (by decide) rfl (by norm_num [scoreConst]),
      generate_post_eval_pass ("casual") ("hi") searchNone genOne (scoreConst (9/10))
        ⟨("post text")⟩ [] (by decide) (by decide) rfl (by norm_num [scoreConst])]
  · intro h
    have h' := congrArg ScoreData.final_score h
    norm_num [scoreConst] at h'

/-- Claim C2 (amended): a final score at or above 0.75 yields the success
body with the generated variations (status success, error None, and no
safety score breakdown in the body); a final score below 0.75 yields the
rejection body with status rejected and no variations; in both cases no
publish call is made. -/
theorem gate_threshold_selects_envelope (tone transcript : String)
    (search : String → List SearchResult)
    (generate : String → List SearchResult → String → List Variation)
    (score : String → Rat → ScoreData) (v0 : Variation) (rest : List Variation)
    (h1 : startswith transcript ("Error") = false)
    (h2 : startswith transcript ("ERROR") = false)
    (hgen : generate transcript (search transcript) tone = v0 :: rest) :
    ((score v0.text (avg_distance (search transcript))).final_score ≥ (0.75 : Rat) →
      generate_post tone transcript search generate score =
        ⟨.body ⟨("success"), some (v0 :: rest), none⟩,
          [transcript], [transcript],
          [(v0.text, avg_distance (search transcript))], []⟩) ∧
    ((score v0.text (avg_distance (search transcript))).final_score < (0.75 : Rat) →
      generate_post tone transcript search generate score =
        ⟨.body ⟨("rejected"), none,
            some ("The generated post failed safety thresholds (Score < 0.75).")⟩,
          [transcript], [transcript],
          [(v0.text, avg_distance (search transcript))], []⟩) :=
  ⟨fun hs => generate_post_eval_pass tone transcript search generate score v0 rest
      h1 h2 hgen hs,
    fun hs => generate_post_eval_reject tone transcript search generate score v0 rest
      h1 h2 hgen hs⟩

/-- Claim C2, witness for the amended theorem at a concrete request on the
rejected side of the gate. -/
theorem gate_threshold_selects_envelope_witness :
    generate_post ("casual") ("hi") searchNone genOne (scoreConst (1/2)) =
      ⟨.body ⟨("rejected"), none,
          some ("The generated post failed safety thresholds (Score < 0.75).")⟩,
        [("hi")], [("hi")],
        [(("post text"), avg_distance (searchNone ("hi")))], []⟩ :=
  (gate_threshold_selects_envelope ("casual") ("hi") searchNone genOne
    (scoreConst (1/2)) ⟨("post text")⟩ [] (by decide) (by decide) rfl).2
    (by norm_num [scoreConst])

/-- Claim C3: evaluating the generation operation of the source
(generation_service.generate_post_rag, which takes no tone parameter) on
a concrete transcript shows it yields one plain string, not a sequence
of one or five candidate records. -/
theorem generate_post_rag_yields_single_string :
    generate_post_rag ("hello") [] ("") (fun _ _ => .ok ("generated post")) =
      ("generated post") := by
  decide

/-- Claim C4: when the generation chain raises, generate_post_rag returns
the error message as an ordinary string prefixed with the error text
(generation_service.py lines 103-105), and the generate-post pipeline
applies the safety scoring to that error text and returns it to the
caller inside the success body as generated content: the failure
neither aborts the pipeline before scoring nor is surfaced as an
error. -/
theorem generation_error_text_is_scored_as_content :
    generate_post_rag ("hi") [] ("") (fun _ _ => .error ("boom")) =
      ("Error generating post: boom") ∧
    (generate_post ("casual") ("hi") searchNone
        (fun _ _ _ => [⟨("Error generating post: boom")⟩])
        (scoreConst (8/10))).scoredTexts =
      [(("Error generating post: boom"), avg_distance (searchNone ("hi")))] ∧
    (generate_post ("casual") ("hi") searchNone
        (fun _ _ _ => [⟨("Error generating post: boom")⟩])
        (scoreConst (8/10))).response =
      .body ⟨("success"), some [⟨("Error generating post: boom")⟩], none⟩ := by
  refine ⟨by decide, ?_, ?_⟩ <;>
    rw [generate_post_eval_pass ("casual") ("hi") searchNone
      (fun _ _ _ => [⟨("Error generating post: boom")⟩]) (scoreConst (8/10))
      ⟨("Error generating post: boom")⟩ [] (by decide) (by decide) rfl
      (by norm_num [scoreConst])]

/-- Claim C5, counterexample: an empty transcript (which is not an
Error-marked string) is not surfaced as a failure by the generate-post
endpoint; it is searched in the vector index, handed to generation, its
candidate is scored, and a success body is returned, so the empty
transcript is processed downstream as valid content. -/
theorem empty_transcript_processed_downstream :
    (generate_post ("casual") ("") searchNone genOne (scoreConst (8/10))).searchedQueries =
      [("")] ∧
    (generate_post ("casual") ("") searchNone genOne (scoreConst (8/10))).scoredTexts =
      [(("post text"), avg_distance (searchNone ("")))] ∧
    (generate_post ("casual") ("") searchNone genOne (scoreConst (8/10))).response =
      .body ⟨("success"), some [⟨("post text")⟩], none⟩ := by
  refine ⟨?_, ?_, ?_⟩ <;>
    rw [generate_post_eval_pass ("casual") ("") searchNone genOne (scoreConst (8/10))
      ⟨("post text")⟩ [] (by decide) (by decide) rfl (by norm_num [scoreConst])]

/-- Claim C5 (amended): in the generate-post path, a transcript that
starts with Error or ERROR (the shape of every failure string returned
by speech_service.transcribe_audio_bytes) is surfaced to the caller as
an HTTPException 500 and nothing downstream runs: no retrieval, no
generation, no scoring, no publish. -/
theorem error_transcript_aborts_generate_post (tone transcript : String)
    (search : String → List SearchResult)
    (generate : String → List SearchResult → String → List Variation)
    (score : String → Rat → ScoreData)
    (h : (startswith transcript ("Error") || startswith transcript ("ERROR")) = true) :
    generate_post tone transcript search generate score =
      ⟨.httpException 500 transcript, [], [], [], []⟩ :=
  generate_post_eval_error tone transcript search generate score h

/-- Claim C5, witness for the amended theorem at a concrete transcription
failure string. -/
theorem error_transcript_aborts_generate_post_witness :
    (startswith ("Error transcribing audio: x") ("Error") ||
      startswith ("Error transcribing audio: x") ("ERROR")) = true ∧
    generate_post ("casual") ("Error transcribing audio: x") searchNone genOne
        (scoreConst (8/10)) =
      ⟨.httpException 500 ("Error transcribing audio: x"), [], [], [], []⟩ :=
  ⟨by decide,
    error_transcript_aborts_generate_post ("casual") ("Error transcribing audio: x")
      searchNone genOne (scoreConst (8/10)) (by decide)⟩

/-- Claim C7, counterexample: a confirm-post request whose scheduled_time
field is present but holds the empty string, which is not a valid
ISO-8601 string, is not answered with a client error: the Python
truthiness guard on main.py line 137 treats it as absent, publishes
immediately and returns status published_immediately, and a publish
does occur. The run is independent of the ISO parser since that branch
is never reached. -/
theorem empty_scheduled_time_publishes_immediately :
    confirm_post isoNone isoFmtInt ⟨("twitter"), ("hi"), some ("")⟩ =
      ⟨.ok ("published_immediately") ("Post published immediately."),
        [], [(("twitter"), ("hi"))]⟩ := by
  decide

/-- Claim C7 (amended): for every confirm-post request whose
scheduled_time is a present, non-empty string rejected by the ISO-8601
parser, the endpoint raises HTTPException 400, registers zero scheduler
jobs and makes no publish call; an empty-string scheduled_time instead
falls through the truthiness guard and publishes immediately. -/
theorem invalid_nonempty_scheduled_time_yields_400 {DT : Type}
    (fromisoformat : String → Option DT) (isoformat : DT → String)
    (request : ConfirmPostRequest) (s : String)
    (hs : request.scheduled_time = some s)
    (hne : s.data.isEmpty = false)
    (hparse : fromisoformat s = none) :
    confirm_post fromisoformat isoformat request =
      ⟨.httpException 400 ("Invalid scheduled_time format. Must be ISO 8601."),
        [], []⟩ := by
  unfold confirm_post
  rw [hs]
  simp only [hne, Bool.false_eq_true, if_false, hparse]

/-- Claim C7, witness for the amended theorem at the concrete request of
the spec scenario, scheduled_time equal to not-a-date. -/
theorem invalid_nonempty_scheduled_time_yields_400_witness :
    ("not-a-date" : String).data.isEmpty = false ∧
    isoNone ("not-a-date") = none ∧
    confirm_post isoNone isoFmtInt ⟨("twitter"), ("hi"), some ("not-a-date")⟩ =
      ⟨.httpException 400 ("Invalid scheduled_time format. Must be ISO 8601."),
        [], []⟩ :=
  ⟨by decide, rfl,
    invalid_nonempty_scheduled_time_yields_400 isoNone isoFmtInt
      ⟨("twitter"), ("hi"), some ("not-a-date")⟩ ("not-a-date") rfl (by decide) rfl⟩

/-- Claim C8: for every confirm-post request with scheduled_time omitted,
the publish action publish_to_social_media fires synchronously within
the call, no scheduler job is created, and the response reports
status published_immediately (main.py lines 149-151). -/
theorem omitted_scheduled_time_publishes_synchronously {DT : Type}
    (fromisoformat : String → Option DT) (isoformat : DT → String)
    (platform text : String) :
    confirm_post fromisoformat isoformat ⟨platform, text, none⟩ =
      ⟨.ok ("published_immediately") ("Post published immediately."),
        [], [(platform, text)]⟩ :=
  rfl

/-- Claim C9: for every transcript on which the date parser yields no
instant, parse-schedule raises HTTPException 400 with a fixed detail;
the 400 response carries no instant at all, so no fabricated time is
substituted (main.py lines 122-123). -/
theorem unparseable_transcript_yields_400 {DT : Type}
    (dateparse : String → Option DT) (isoformat : DT → String)
    (transcript : String) (h : dateparse transcript = none) :
    parse_schedule dateparse isoformat transcript =
      .httpException 400 ("Could not parse scheduled time from transcript.") := by
  unfold parse_schedule
  rw [h]

/-- Claim C9, witness at the concrete transcript of the spec scenario. -/
theorem unparseable_transcript_yields_400_witness :
    isoNone ("not a time at all") = none ∧
    parse_schedule isoNone isoFmtInt ("not a time at all") =
      .httpException 400 ("Could not parse scheduled time from transcript.") :=
  ⟨rfl, unparseable_transcript_yields_400 isoNone isoFmtInt ("not a time at all") rfl⟩

/-- Claim C10: decrypting the encryption of a string returns the string,
whenever both wrappers run against the same Fernet key. The Fernet
cipher (an external library object) is assumed to satisfy its
documented round-trip contract at that key, the UTF-8 codec to invert
encoding, and Fernet tokens to survive the decode/encode round trip
(they are ASCII base64url text); under those collaborator contracts the
wrapper composition in database.py lines 49-55 restores the
plaintext. -/
theorem decrypt_secret_inverts_encrypt_secret {Bytes Key : Type}
    (encode : String → Bytes) (decode : Bytes → Option String)
    (fernetEncrypt fernetDecrypt : Key → Bytes → Bytes) (key : Key)
    (hFernet : ∀ b, fernetDecrypt key (fernetEncrypt key b) = b)
    (hCodec : ∀ s, decode (encode s) = some s)
    (hToken : ∀ b t, decode (fernetEncrypt key b) = some t →
      encode t = fernetEncrypt key b)
    (s t : String)
    (hEnc : encrypt_secret encode decode (fernetEncrypt key) s = some t) :
    decrypt_secret encode decode (fernetDecrypt key) t = some s := by
  unfold encrypt_secret at hEnc
  unfold decrypt_secret
  rw [hToken (encode s) t hEnc, hFernet, hCodec]

/-- Claim C10, witness instantiating the collaborator contracts with the
identity cipher over string bytes. -/
theorem decrypt_secret_inverts_encrypt_secret_witness :
    encrypt_secret (fun s => s) (fun b => some b) (fun b => b) ("secret") =
      some ("secret") ∧
    decrypt_secret (fun s => s) (fun b => some b) (fun b => b) ("secret") =
      some ("secret") :=
  ⟨rfl,
    decrypt_secret_inverts_encrypt_secret (fun s => s)
      (fun b => some b) (fun (_ : Unit) b => b) (fun (_ : Unit) b => b) ()
      (fun _ => rfl) (fun _ => rfl) (fun _ _ h => (Option.some.inj h).symm)
      ("secret") ("secret") rfl⟩
